import Mathlib

/-!
# Fan controller (`src/main.cpp`)

A shallow embedding of the temperature-driven fan controller: the control
state machine in the main loop (`switch(state)`), the self-rescheduling ramp
callback `fanAccel`, the debounced touch handling with its reset callback
`ToggleInput`, the sensor refresh `readThermometer` with the ticker handler
`updateTemp` that queues it, and the formatting of the display text.

Conventions of the embedding

* C `double`/`float` values (temperature, threshold, duty cycle) are exact
  rationals `ℚ`; the decimal literals of the source (`0.05`, `0.1`, `0.5`, ...)
  denote the corresponding rationals.
* The global variables of the program are the fields of `State`.
* A `Timeout` object is `Option ℕ`: `some d` when a callback is pending with
  delay `d` milliseconds, `none` when nothing is pending.  When a one-shot
  timer expires its pending entry is consumed and then the callback runs.
* Events (a main-loop iteration, a timer expiry, a sensor refresh) are atomic.
* Calls into the display driver have no effect on the modelled variables and
  are left out.
-/

namespace FanControl

/-- The control states, `enum AppState` (main.cpp:19-23). -/
inductive AppState where
  | IDLE
  | FAN_ACCEL
  | FAN_MAX
  deriving DecidableEq, Repr

/-- The global variables of main.cpp.  `fan` is the duty cycle held by the
`PwmOut fan` object and `fanWrites` is a history variable recording every value
passed to `fan.write`, most recent first. -/
structure State where
  /-- Variable `volatile AppState state` (main.cpp:24). -/
  state : AppState
  /-- Output `DigitalOut led1` (main.cpp:27). -/
  led1 : Bool
  /-- Output `DigitalOut led2` (main.cpp:28). -/
  led2 : Bool
  /-- Duty cycle of `PwmOut fan` (main.cpp:34): what `fan.read()` returns. -/
  fan : ℚ
  /-- History of the arguments of `fan.write`, most recent first. -/
  fanWrites : List ℚ
  /-- One-shot timer `Timeout fanAccelTimeout` (main.cpp:37). -/
  fanAccelTimeout : Option ℕ
  /-- Variable `volatile double temp` (main.cpp:41). -/
  temp : ℚ
  /-- Variable `double threshold` (main.cpp:44). -/
  threshold : ℚ
  /-- Variable `bool canInput` (main.cpp:47). -/
  canInput : Bool
  /-- One-shot timer `Timeout timeout` (main.cpp:15), used for the debounce. -/
  timeout : Option ℕ
  deriving DecidableEq, Repr

/-- Modelled from the spec: the touch driver type `TS_StateTypeDef` is declared
in a header that is not part of the sources; the spec gives the touch interface
as `getState() -> {touchDetected: bool, x: int, y: int}`. -/
structure TS_StateTypeDef where
  TouchDetected : Bool
  X : Int
  Y : Int
  deriving DecidableEq, Repr

/-- Modelled from the spec: `PwmOut::write` is declared in the mbed headers,
which are not part of the sources; the spec's actuator `write(duty)` sets the
drive level without validating the range and `read()` returns the last commanded
level.  The written value is also pushed on the history `fanWrites`. -/
def fanWrite (v : ℚ) (s : State) : State :=
  { s with fan := v, fanWrites := v :: s.fanWrites }

/-- Callback `readThermometer` (main.cpp:50-52): `temp = lm35.read() / 0.01`,
where `raw` is the value returned by `lm35.read()`. -/
def readThermometer (raw : ℚ) (s : State) : State :=
  { s with temp := raw / 0.01 }

/-- Callback `ToggleInput` (main.cpp:55-58). -/
def ToggleInput (s : State) : State :=
  { s with canInput := true }

/-- Callback `fanAccel` (main.cpp:68-90). -/
def fanAccel (s : State) : State :=
  if s.state = AppState.FAN_ACCEL then
    let duty : ℚ := s.fan
    if duty < 1.0 then
      let duty : ℚ := duty + 0.05
      let duty : ℚ := if duty > 1.0 then 1.0 else duty
      let s := fanWrite duty s
      let s := { s with fanAccelTimeout := some 100 }
      { s with led1 := true, led2 := false }
    else
      { s with state := AppState.FAN_MAX, led1 := false, led2 := true }
  else
    s

/-- The touch handling of one main-loop iteration (main.cpp:144-182), for the
touch state `ts` returned by `ts.GetState` and the display width `xsize`
returned by `LCD.GetXSize()`. -/
def touchHandling (xsize : Int) (ts : TS_StateTypeDef) (s : State) : State :=
  if ts.TouchDetected && s.canInput then
    if ts.X > 20 ∧ ts.X < 80 ∧ ts.Y < 125 ∧ ts.Y > 65 then
      { s with led1 := true, threshold := s.threshold + 0.5,
               canInput := false, timeout := some 500 }
    else if ts.X > xsize - 80 ∧ ts.X < xsize - 20 ∧ ts.Y < 125 ∧ ts.Y > 65 then
      { s with led2 := true, threshold := s.threshold - 0.5,
               canInput := false, timeout := some 500 }
    else
      s
  else
    { s with led1 := false, led2 := false }

/-- The control tick: `switch(state)` of the main loop (main.cpp:183-218). -/
def controlTick (s : State) : State :=
  match s.state with
  | AppState.IDLE =>
    let s := fanWrite 0.0 s
    let s := { s with led1 := false, led2 := false }
    if s.temp > s.threshold then
      let s := { s with state := AppState.FAN_ACCEL }
      let s := fanWrite 0.1 s
      { s with fanAccelTimeout := some 100 }
    else
      s
  | AppState.FAN_ACCEL =>
    if s.temp ≤ s.threshold then
      let s := { s with fanAccelTimeout := none }
      let s := fanWrite 0.0 s
      let s := { s with state := AppState.IDLE }
      { s with led1 := false, led2 := false }
    else
      s
  | AppState.FAN_MAX =>
    let s := fanWrite 1.0 s
    if s.temp ≤ s.threshold then
      let s := fanWrite 0.0 s
      { s with state := AppState.IDLE }
    else
      s

/-- One iteration of `while (1)` in `main` (main.cpp:111-219) on the modelled
variables: touch handling, then the control tick. -/
def mainLoopIter (xsize : Int) (ts : TS_StateTypeDef) (s : State) : State :=
  controlTick (touchHandling xsize ts s)

/-- Expiry of the one-shot `fanAccelTimeout`: the pending entry is consumed and
the attached callback `fanAccel` runs. -/
def fanAccelFire (s : State) : State :=
  fanAccel { s with fanAccelTimeout := none }

/-- Expiry of the one-shot `timeout`: the pending entry is consumed and the
attached callback `ToggleInput` runs. -/
def toggleInputFire (s : State) : State :=
  ToggleInput { s with timeout := none }

/-- C `round`: nearest integer, halves away from zero. -/
def cround (x : ℚ) : ℤ :=
  if 0 ≤ x then ⌊x + 1 / 2⌋ else ⌈x - 1 / 2⌉

/-- The state before the first main-loop iteration, from the static
initialisers (main.cpp:24-47), for the first sensor reading `raw`.  The sources
do not set the duty cycle of `PwmOut fan` before the loop; it is taken to start
at `0.0`, the value Idle forces on every tick.  No timer is pending. -/
def init (raw : ℚ) : State :=
  { state := AppState.IDLE
    led1 := false
    led2 := false
    fan := 0.0
    fanWrites := []
    fanAccelTimeout := none
    temp := raw / 0.01
    threshold := (cround (raw / 0.01) : ℚ) + 1.0
    canInput := true
    timeout := none }

/-- The events that change the modelled variables. -/
inductive Event where
  /-- One main-loop iteration with the polled touch state. -/
  | mainLoop (ts : TS_StateTypeDef)
  /-- The ramp timer `fanAccelTimeout` expires. -/
  | rampFire
  /-- The debounce timer `timeout` expires. -/
  | resetFire
  /-- The queued `readThermometer` runs with sensor value `raw`. -/
  | tempUpdate (raw : ℚ)
  deriving DecidableEq, Repr

/-- Whether an event can occur: a timer expires only while it is pending. -/
def Event.enabled (s : State) : Event → Bool
  | Event.mainLoop _ => true
  | Event.rampFire => s.fanAccelTimeout.isSome
  | Event.resetFire => s.timeout.isSome
  | Event.tempUpdate _ => true

/-- The effect of one event. -/
def step (xsize : Int) (s : State) : Event → State
  | Event.mainLoop ts => mainLoopIter xsize ts s
  | Event.rampFire => fanAccelFire s
  | Event.resetFire => toggleInputFire s
  | Event.tempUpdate raw => readThermometer raw s

/-- The effect of a sequence of events, first event first. -/
def run (xsize : Int) (s : State) : List Event → State
  | [] => s
  | e :: es => run xsize (step xsize s e) es

/-- The states the system can be in: those reached from an initial state by
enabled events, in any interleaving. -/
inductive Reachable (xsize : Int) : State → Prop where
  | start (raw : ℚ) : Reachable xsize (init raw)
  | next (s : State) (e : Event) :
      Reachable xsize s → e.enabled s = true → Reachable xsize (step xsize s e)

/-- The state after `n` successive runs of the callback `fanAccel`. -/
def fanAccelIter (s : State) : ℕ → State
  | 0 => s
  | n + 1 => fanAccel (fanAccelIter s n)

/-! ## Concrete states used to exercise the theorems -/

/-- Idle with temperature 30.0 and threshold 29.0. -/
def exIdleHot : State :=
  { init 0.29 with temp := 30.0, threshold := 29.0 }

/-- Accelerating with duty cycle 0.95 and the ramp timer pending. -/
def exAccel095 : State :=
  { init 0.29 with state := AppState.FAN_ACCEL, fan := 0.95, fanWrites := [0.95],
                   fanAccelTimeout := some 100, temp := 30.0, threshold := 29.0,
                   led1 := true }

/-- Accelerating with duty cycle 0.4 and the temperature back under the
threshold. -/
def exAccelCool : State :=
  { init 0.29 with state := AppState.FAN_ACCEL, fan := 0.4, fanWrites := [0.4],
                   fanAccelTimeout := some 100, temp := 20.0, threshold := 25.0,
                   led1 := true }

/-- MaxSpeed with temperature 20.0 and threshold 25.0. -/
def exMaxCool : State :=
  { init 0.29 with state := AppState.FAN_MAX, fan := 1.0, fanWrites := [1.0],
                   temp := 20.0, threshold := 25.0, led2 := true }

/-- Idle at the initial reading 0.2 (20 degrees), input gate open. -/
def exStart : State :=
  init 0.2

/-- A touch inside the increase hit-region. -/
def exTouchPlus : TS_StateTypeDef :=
  { TouchDetected := true, X := 50, Y := 100 }

/-- A touch inside the decrease hit-region of a display of width 240. -/
def exTouchMinus : TS_StateTypeDef :=
  { TouchDetected := true, X := 200, Y := 100 }

/-- Idle during a debounce window: gate closed, reset timer pending. -/
def exGateClosed : State :=
  { init 0.2 with threshold := 21.5, canInput := false, timeout := some 500 }

/-- What happens between two accepted touches in the example trace: a touch
during the debounce window, the expiry of the reset timer, a sensor refresh. -/
def exBetween : List Event :=
  [Event.mainLoop exTouchPlus, Event.resetFire, Event.tempUpdate 0.25]

/-- The duty cycle and every value ever written to the fan lie in [0.0, 1.0]. -/
def FanRange (s : State) : Prop :=
  (0.0 ≤ s.fan ∧ s.fan ≤ 1.0) ∧ ∀ v ∈ s.fanWrites, 0.0 ≤ v ∧ v ≤ 1.0

/-- A touch outside both hit-regions of a display of width 240. -/
def exTouchOutside : TS_StateTypeDef :=
  { TouchDetected := true, X := 120, Y := 100 }

/-! ## The handlers as lists of actions -/

/-- The work items that are queued on `EventQueue queue` (main.cpp:17). -/
inductive Work where
  /-- The function `readThermometer`. -/
  | readThermometer
  deriving DecidableEq, Repr

/-- The operations the callbacks of main.cpp perform on the objects outside
them, one constructor per kind of statement in their bodies. -/
inductive Action where
  /-- The call `queue.call(w)`. -/
  | queueCall (w : Work)
  /-- The call `LCD.Clear(LCD_COLOR_WHITE)`. -/
  | lcdClear
  /-- The call `lm35.read()`. -/
  | lm35Read
  /-- The assignment `temp = v`. -/
  | setTemp (v : ℚ)
  /-- The assignment `canInput = b`. -/
  | setCanInput (b : Bool)
  /-- The assignment `state = a`. -/
  | setState (a : AppState)
  /-- The call `fan.read()`. -/
  | pwmRead
  /-- The call `fan.write(v)`. -/
  | pwmWrite (v : ℚ)
  /-- The call `fanAccelTimeout.attach(&fanAccel, d)`, `d` in milliseconds. -/
  | attachFanAccel (d : ℕ)
  /-- The assignment `led1 = b`. -/
  | setLed1 (b : Bool)
  /-- The assignment `led2 = b`. -/
  | setLed2 (b : Bool)
  deriving DecidableEq, Repr

/-- The kinds of action. -/
inductive ActionKind where
  | enqueue
  | displayCall
  | sensorRead
  | flagWrite
  | timerArm
  | actuatorRead
  | actuatorWrite
  | indicatorWrite
  deriving DecidableEq, Repr

/-- The kind of each action. -/
def Action.kind : Action → ActionKind
  | Action.queueCall _ => ActionKind.enqueue
  | Action.lcdClear => ActionKind.displayCall
  | Action.lm35Read => ActionKind.sensorRead
  | Action.setTemp _ => ActionKind.flagWrite
  | Action.setCanInput _ => ActionKind.flagWrite
  | Action.setState _ => ActionKind.flagWrite
  | Action.pwmRead => ActionKind.actuatorRead
  | Action.pwmWrite _ => ActionKind.actuatorWrite
  | Action.attachFanAccel _ => ActionKind.timerArm
  | Action.setLed1 _ => ActionKind.indicatorWrite
  | Action.setLed2 _ => ActionKind.indicatorWrite

/-- The effect of an action on the modelled variables. -/
def Action.apply (s : State) : Action → State
  | Action.queueCall _ => s
  | Action.lcdClear => s
  | Action.lm35Read => s
  | Action.setTemp v => { s with temp := v }
  | Action.setCanInput b => { s with canInput := b }
  | Action.setState a => { s with state := a }
  | Action.pwmRead => s
  | Action.pwmWrite v => fanWrite v s
  | Action.attachFanAccel d => { s with fanAccelTimeout := some d }
  | Action.setLed1 b => { s with led1 := b }
  | Action.setLed2 b => { s with led2 := b }

/-- The effect of a list of actions, performed first to last. -/
def runActions (s : State) (as : List Action) : State :=
  as.foldl Action.apply s

/-- The actions of the ticker handler `updateTemp` (main.cpp:61-65), attached to
`ThermoTicker` with a period of 500 ms (main.cpp:96). -/
def updateTempActions : List Action :=
  [Action.queueCall Work.readThermometer, Action.lcdClear]

/-- The actions of `readThermometer` (main.cpp:50-52), which runs on the event
thread; `raw` is the value returned by `lm35.read()`. -/
def readThermometerActions (raw : ℚ) : List Action :=
  [Action.lm35Read, Action.setTemp (raw / 0.01)]

/-- The actions of the timeout callback `ToggleInput` (main.cpp:55-58). -/
def ToggleInputActions : List Action :=
  [Action.setCanInput true]

/-- The actions of the timeout callback `fanAccel` (main.cpp:68-90) when it
runs in state `s`. -/
def fanAccelActions (s : State) : List Action :=
  if s.state = AppState.FAN_ACCEL then
    let duty : ℚ := s.fan
    if duty < 1.0 then
      let duty : ℚ := duty + 0.05
      let duty : ℚ := if duty > 1.0 then 1.0 else duty
      [Action.pwmRead, Action.pwmWrite duty, Action.attachFanAccel 100,
        Action.setLed1 true, Action.setLed2 false]
    else
      [Action.pwmRead, Action.setState AppState.FAN_MAX,
        Action.setLed1 false, Action.setLed2 true]
  else
    []

/-- No touch on the panel. -/
def exNoTouch : TS_StateTypeDef :=
  { TouchDetected := false, X := 0, Y := 0 }

/-- A run up to MaxSpeed and a cooling: the sensor reads 30 degrees, a main-loop
iteration starts the ramp, nineteen ramp expiries reach MaxSpeed, then the
sensor reads 20 degrees. -/
def exTraceToMax : List Event :=
  [Event.tempUpdate 0.3, Event.mainLoop exNoTouch] ++ List.replicate 19 Event.rampFire ++
    [Event.tempUpdate 0.2]

/-- Whether every event of a sequence is enabled when its turn comes. -/
def runEnabled (xsize : Int) (s : State) : List Event → Bool
  | [] => true
  | e :: es => e.enabled s && runEnabled xsize (step xsize s e) es

/-- The state after `n` successive expiries of the ramp timer. -/
def fanAccelFireIter (s : State) : ℕ → State
  | 0 => s
  | n + 1 => fanAccelFire (fanAccelFireIter s n)

/-- Accelerating with the duty cycle at 1.0 and the ramp timer pending. -/
def exAccelFull : State :=
  { exAccel095 with fan := 1.0, fanWrites := [1.0, 0.95] }

/-- A short run into the ramp: the sensor reads 35 degrees, a main-loop
iteration starts the ramp, the ramp timer expires once. -/
def exTraceRamp : List Event :=
  [Event.tempUpdate 0.35, Event.mainLoop exTouchPlus, Event.rampFire]

/-- The control state determines the range of the duty cycle. -/
def StateDuty (s : State) : Prop :=
  (s.state = AppState.IDLE → s.fan = 0.0) ∧
    (s.state = AppState.FAN_MAX → s.fan = 1.0) ∧
    (s.state = AppState.FAN_ACCEL → 0.1 ≤ s.fan ∧ s.fan ≤ 1.0)

/-- The ramp timer is pending exactly in Accelerating. -/
def TimerMatchesState (s : State) : Prop :=
  s.fanAccelTimeout.isSome = true ↔ s.state = AppState.FAN_ACCEL

/-! ## The display text -/

/-- Truncation toward zero. -/
def ctrunc (x : ℚ) : ℤ :=
  if 0 ≤ x then ⌊x⌋ else ⌈x⌉

/-- The C conversion `(int)x` of a `double`: truncation toward zero, undefined
(`none`) when the truncated value does not fit a 32-bit `int`. -/
def toInt (x : ℚ) : Option ℤ :=
  if -2147483648 ≤ ctrunc x ∧ ctrunc x ≤ 2147483647 then some (ctrunc x) else none

/-- The `sprintf` conversions `%d` and `%01d` of an `int`: the decimal digits,
after a minus sign when the value is negative. -/
def fmtD (n : ℤ) : String :=
  toString n

/-- The text formatted by the main loop for the value `v` (main.cpp:113-125 for
the temperature, main.cpp:129-140 for the threshold), `label` being the leading
part of the format string.  The destination buffers of 20 bytes are not
modelled: the result is the text `sprintf` produces. -/
def formatValue (label : String) (v : ℚ) : Option String :=
  match toInt v with
  | none => none
  | some vInt =>
    match toInt |(v - (vInt : ℚ)) * 10| with
    | none => none
    | some vDecimal =>
      if v < 0 ∧ vInt = 0 then
        some (label ++ "-" ++ fmtD |vInt| ++ "." ++ fmtD vDecimal ++ "C")
      else
        some (label ++ fmtD vInt ++ "." ++ fmtD vDecimal ++ "C")

/-- The text `sensorText` of a main-loop iteration (main.cpp:113-125). -/
def sensorText (s : State) : Option String :=
  formatValue "Sensor: " s.temp

/-- The text `threshText` of a main-loop iteration (main.cpp:129-140). -/
def threshText (s : State) : Option String :=
  formatValue "Thresh: " s.threshold

/-- Idle with a sensor value of half a degree below zero. -/
def exFrost : State :=
  { init 0.2 with temp := -0.5 }

/-! ## Frame lemmas -/

theorem fanAccel_of_ne (s : State) (h : s.state ≠ AppState.FAN_ACCEL) : fanAccel s = s := by
  simp [fanAccel, h]

theorem fanAccel_of_lt (s : State) (h : s.state = AppState.FAN_ACCEL) (hd : s.fan < 1) :
    fanAccel s =
      { s with fan := min (s.fan + 0.05) 1, fanWrites := min (s.fan + 0.05) 1 :: s.fanWrites,
               fanAccelTimeout := some 100, led1 := true, led2 := false } := by
  have h1 : (1.0 : ℚ) = 1 := by norm_num
  by_cases hc : s.fan + 0.05 > 1
  · have hm : min (s.fan + 0.05) 1 = 1 := min_eq_right hc.le
    simp [fanAccel, h, hd, h1, hc, fanWrite, hm]
  · have hm : min (s.fan + 0.05) 1 = s.fan + 0.05 := min_eq_left (not_lt.mp hc)
    simp [fanAccel, h, hd, h1, hc, fanWrite, hm]

theorem fanAccel_of_ge (s : State) (h : s.state = AppState.FAN_ACCEL) (hd : 1 ≤ s.fan) :
    fanAccel s = { s with state := AppState.FAN_MAX, led1 := false, led2 := true } := by
  have h1 : (1.0 : ℚ) = 1 := by norm_num
  simp [fanAccel, h, h1, not_lt.mpr hd]

/-! ## The control tick in Idle -/

/-- C1: for every temperature and threshold with temperature > threshold, a
control tick taken in Idle yields state Accelerating with duty cycle exactly 0.1
and the ramp timer armed (100 ms). -/
theorem C1_idle_tick_starts_ramp (s : State) (hs : s.state = AppState.IDLE)
    (ht : s.temp > s.threshold) :
    (controlTick s).state = AppState.FAN_ACCEL ∧ (controlTick s).fan = 0.1 ∧
      (controlTick s).fanAccelTimeout = some 100 := by
  simp [controlTick, hs, fanWrite, ht]

/-- C1 at temperature 30.0 and threshold 29.0. -/
theorem C1_idle_tick_starts_ramp_witness :
    exIdleHot.state = AppState.IDLE ∧ exIdleHot.temp > exIdleHot.threshold ∧
      ((controlTick exIdleHot).state = AppState.FAN_ACCEL ∧
        (controlTick exIdleHot).fan = 0.1 ∧
        (controlTick exIdleHot).fanAccelTimeout = some 100) :=
  ⟨rfl, by norm_num [exIdleHot], C1_idle_tick_starts_ramp exIdleHot rfl (by norm_num [exIdleHot])⟩

/-! ## The ramp -/

/-- Along repeated runs of `fanAccel` from Accelerating with duty in
[0.1, 1.0]: the state is Accelerating or MaxSpeed, the duty stays in range, and
MaxSpeed comes with duty 1.0. -/
theorem fanAccelIter_inv (s : State) (hs : s.state = AppState.FAN_ACCEL)
    (hlo : 0.1 ≤ s.fan) (hhi : s.fan ≤ 1.0) (n : ℕ) :
    ((fanAccelIter s n).state = AppState.FAN_ACCEL ∨
        (fanAccelIter s n).state = AppState.FAN_MAX) ∧
      0.1 ≤ (fanAccelIter s n).fan ∧ (fanAccelIter s n).fan ≤ 1.0 ∧
      ((fanAccelIter s n).state = AppState.FAN_MAX → (fanAccelIter s n).fan = 1.0) := by
  induction n with
  | zero => exact ⟨Or.inl hs, hlo, hhi, fun h => by simp [fanAccelIter, hs] at h⟩
  | succ n ih =>
    obtain ⟨hst, h1, h2, h3⟩ := ih
    have e1 : (1.0 : ℚ) = 1 := by norm_num
    rw [e1] at h2 h3 ⊢
    simp only [fanAccelIter]
    rcases hst with hA | hM
    · rcases lt_or_le (fanAccelIter s n).fan 1 with hd | hd
      · rw [fanAccel_of_lt _ hA hd]
        refine ⟨Or.inl hA, ?_, min_le_right _ _, fun h => by simp [hA] at h⟩
        refine le_min ?_ (by norm_num)
        have : (0.1 : ℚ) ≤ (fanAccelIter s n).fan := h1
        have h5 : (0 : ℚ) ≤ 0.05 := by norm_num
        linarith
      · rw [fanAccel_of_ge _ hA hd]
        exact ⟨Or.inr rfl, h1, h2, fun _ => le_antisymm h2 hd⟩
    · rw [fanAccel_of_ne _ (by simp [hM])]
      exact ⟨Or.inr hM, h1, h2, h3⟩

/-- C2: for every sequence of ramp firings that starts in Accelerating with
duty cycle in [0.1, 1.0], the duty cycle after each firing is at least the duty
cycle before it and lies in [0.1, 1.0], and a firing that changes the state from
Accelerating to MaxSpeed leaves the duty cycle at exactly 1.0. -/
theorem C2_ramp_monotone_bounded (s : State) (hs : s.state = AppState.FAN_ACCEL)
    (hlo : 0.1 ≤ s.fan) (hhi : s.fan ≤ 1.0) (n : ℕ) :
    (fanAccelIter s n).fan ≤ (fanAccelIter s (n + 1)).fan ∧
      0.1 ≤ (fanAccelIter s (n + 1)).fan ∧ (fanAccelIter s (n + 1)).fan ≤ 1.0 ∧
      ((fanAccelIter s n).state = AppState.FAN_ACCEL →
        (fanAccelIter s (n + 1)).state = AppState.FAN_MAX →
        (fanAccelIter s (n + 1)).fan = 1.0) := by
  obtain ⟨-, h1, h2, h3⟩ := fanAccelIter_inv s hs hlo hhi (n + 1)
  refine ⟨?_, h1, h2, fun _ h => h3 h⟩
  obtain ⟨hst, -, -, -⟩ := fanAccelIter_inv s hs hlo hhi n
  simp only [fanAccelIter]
  rcases hst with hA | hM
  · rcases lt_or_le (fanAccelIter s n).fan 1 with hd | hd
    · rw [fanAccel_of_lt _ hA hd]
      refine le_min ?_ hd.le
      have h5 : (0 : ℚ) ≤ 0.05 := by norm_num
      linarith
    · rw [fanAccel_of_ge _ hA hd]
  · rw [fanAccel_of_ne _ (by simp [hM])]

/-- C2 at duty cycle 0.95, second firing: the first firing reaches 1.0 and the
second one changes the state to MaxSpeed. -/
theorem C2_ramp_monotone_bounded_witness :
    exAccel095.state = AppState.FAN_ACCEL ∧ 0.1 ≤ exAccel095.fan ∧ exAccel095.fan ≤ 1.0 ∧
      ((fanAccelIter exAccel095 1).fan ≤ (fanAccelIter exAccel095 (1 + 1)).fan ∧
        0.1 ≤ (fanAccelIter exAccel095 (1 + 1)).fan ∧
        (fanAccelIter exAccel095 (1 + 1)).fan ≤ 1.0 ∧
        ((fanAccelIter exAccel095 1).state = AppState.FAN_ACCEL →
          (fanAccelIter exAccel095 (1 + 1)).state = AppState.FAN_MAX →
          (fanAccelIter exAccel095 (1 + 1)).fan = 1.0)) :=
  ⟨rfl, by norm_num [exAccel095], by norm_num [exAccel095],
    C2_ramp_monotone_bounded exAccel095 rfl (by norm_num [exAccel095])
      (by norm_num [exAccel095]) 1⟩

/-- C3 as stated fails: the firing taken in Accelerating with duty cycle 0.95
does not yield duty 1.0 together with state MaxSpeed and no rescheduling. -/
theorem C3_firing_at_095_counterexample :
    ¬ ((fanAccelFire exAccel095).fan = 1.0 ∧
        (fanAccelFire exAccel095).state = AppState.FAN_MAX ∧
        (fanAccelFire exAccel095).fanAccelTimeout = none) := by
  have h : (fanAccelFire exAccel095).state = AppState.FAN_ACCEL := by
    norm_num [fanAccelFire, fanAccel, exAccel095, init, fanWrite]
  rw [h]
  simp

/-- C3 (amended): a ramp firing taken in Accelerating with duty cycle 0.95
sets the duty cycle to 1.0, keeps the state Accelerating and reschedules the
ramp (100 ms); the firing after it sets the state to MaxSpeed with the duty
cycle still 1.0 and does not reschedule. -/
theorem C3_firing_at_095 (s : State) (hs : s.state = AppState.FAN_ACCEL)
    (hd : s.fan = 0.95) :
    (fanAccelFire s).fan = 1.0 ∧ (fanAccelFire s).state = AppState.FAN_ACCEL ∧
      (fanAccelFire s).fanAccelTimeout = some 100 ∧
      (fanAccelFire (fanAccelFire s)).fan = 1.0 ∧
      (fanAccelFire (fanAccelFire s)).state = AppState.FAN_MAX ∧
      (fanAccelFire (fanAccelFire s)).fanAccelTimeout = none := by
  norm_num [fanAccelFire, fanAccel, fanWrite, hs, hd]

/-- C3 (amended) at `exAccel095`. -/
theorem C3_firing_at_095_witness :
    exAccel095.state = AppState.FAN_ACCEL ∧ exAccel095.fan = 0.95 ∧
      ((fanAccelFire exAccel095).fan = 1.0 ∧
        (fanAccelFire exAccel095).state = AppState.FAN_ACCEL ∧
        (fanAccelFire exAccel095).fanAccelTimeout = some 100 ∧
        (fanAccelFire (fanAccelFire exAccel095)).fan = 1.0 ∧
        (fanAccelFire (fanAccelFire exAccel095)).state = AppState.FAN_MAX ∧
        (fanAccelFire (fanAccelFire exAccel095)).fanAccelTimeout = none) :=
  ⟨rfl, rfl, C3_firing_at_095 exAccel095 rfl rfl⟩

/-- C4: in a control state other than Accelerating a ramp firing is a no-op:
`fanAccel` returns the state unchanged (duty cycle, control state, both
indicators, no new write to the fan) and the expired ramp timer is not re-armed.
In particular, after a control tick has left Accelerating because
temperature <= threshold, a stale firing changes nothing and the duty cycle
stays 0.0. -/
theorem C4_stale_firing_noop (s : State) (hs : s.state ≠ AppState.FAN_ACCEL)
    (t : State) (ht : t.state = AppState.FAN_ACCEL) (hle : t.temp ≤ t.threshold) :
    fanAccel s = s ∧
      fanAccelFire s = { s with fanAccelTimeout := none } ∧
      (controlTick t).state = AppState.IDLE ∧
      fanAccel (controlTick t) = controlTick t ∧
      fanAccelFire (controlTick t) = controlTick t ∧
      (fanAccelFire (controlTick t)).fan = 0.0 := by
  have hI : (controlTick t).state = AppState.IDLE := by
    simp [controlTick, ht, hle, fanWrite]
  have hT : (controlTick t).fanAccelTimeout = none := by
    simp [controlTick, ht, hle, fanWrite]
  have hF : (controlTick t).fan = 0.0 := by
    simp [controlTick, ht, hle, fanWrite]
  have hN : fanAccel (controlTick t) = controlTick t :=
    fanAccel_of_ne _ (by simp [hI])
  have hE : { controlTick t with fanAccelTimeout := none } = controlTick t := by
    rw [← hT]
  refine ⟨fanAccel_of_ne s hs, ?_, hI, hN, ?_, ?_⟩
  · exact fanAccel_of_ne _ hs
  · rw [fanAccelFire, hE, hN]
  · rw [fanAccelFire, hE, hN, hF]

/-- C4 at MaxSpeed (`exMaxCool`) and at an aborted ramp (`exAccelCool`). -/
theorem C4_stale_firing_noop_witness :
    exMaxCool.state ≠ AppState.FAN_ACCEL ∧ exAccelCool.state = AppState.FAN_ACCEL ∧
      exAccelCool.temp ≤ exAccelCool.threshold ∧
      (fanAccel exMaxCool = exMaxCool ∧
        fanAccelFire exMaxCool = { exMaxCool with fanAccelTimeout := none } ∧
        (controlTick exAccelCool).state = AppState.IDLE ∧
        fanAccel (controlTick exAccelCool) = controlTick exAccelCool ∧
        fanAccelFire (controlTick exAccelCool) = controlTick exAccelCool ∧
        (fanAccelFire (controlTick exAccelCool)).fan = 0.0) :=
  ⟨by decide, rfl, by norm_num [exAccelCool],
    C4_stale_firing_noop exMaxCool (by decide) exAccelCool rfl (by norm_num [exAccelCool])⟩

/-! ## The control tick in MaxSpeed and in Accelerating -/

/-- C5: a control tick taken in MaxSpeed yields MaxSpeed with duty cycle 1.0
when temperature > threshold, and Idle with duty cycle 0.0 when
temperature <= threshold. -/
theorem C5_max_tick (s : State) (hs : s.state = AppState.FAN_MAX) :
    (s.temp > s.threshold →
        (controlTick s).state = AppState.FAN_MAX ∧ (controlTick s).fan = 1.0) ∧
      (s.temp ≤ s.threshold →
        (controlTick s).state = AppState.IDLE ∧ (controlTick s).fan = 0.0) := by
  constructor
  · intro h
    simp [controlTick, hs, fanWrite, not_le.mpr h]
  · intro h
    simp [controlTick, hs, fanWrite, h]

/-- C5 at temperature 20.0 and threshold 25.0: Idle with duty cycle 0.0. -/
theorem C5_max_tick_witness :
    exMaxCool.state = AppState.FAN_MAX ∧ exMaxCool.temp ≤ exMaxCool.threshold ∧
      (controlTick exMaxCool).state = AppState.IDLE ∧ (controlTick exMaxCool).fan = 0.0 :=
  ⟨rfl, by norm_num [exMaxCool],
    (C5_max_tick exMaxCool rfl).2 (by norm_num [exMaxCool])⟩

/-- C6: a control tick taken in Accelerating yields Idle with duty cycle 0.0
and the ramp timer disarmed exactly when temperature <= threshold, whatever the
current duty cycle; when temperature > threshold the tick changes nothing (duty
cycle, control state and ramp timer included). -/
theorem C6_accel_tick (s : State) (hs : s.state = AppState.FAN_ACCEL) :
    (((controlTick s).state = AppState.IDLE ∧ (controlTick s).fan = 0.0 ∧
          (controlTick s).fanAccelTimeout = none) ↔ s.temp ≤ s.threshold) ∧
      (s.temp > s.threshold → controlTick s = s) := by
  by_cases h : s.temp ≤ s.threshold
  · have hn : ¬ s.temp > s.threshold := not_lt.mpr h
    simp [controlTick, hs, fanWrite, h, hn]
  · have hp : s.temp > s.threshold := not_le.mp h
    simp [controlTick, hs, h, hp]

/-- C6 at an ongoing ramp whose temperature fell under the threshold
(`exAccelCool`, duty cycle 0.4), where the tick aborts the ramp, and at one
whose temperature is above it (`exAccel095`), where the tick changes nothing. -/
theorem C6_accel_tick_witness :
    exAccelCool.state = AppState.FAN_ACCEL ∧ exAccelCool.temp ≤ exAccelCool.threshold ∧
      ((controlTick exAccelCool).state = AppState.IDLE ∧
        (controlTick exAccelCool).fan = 0.0 ∧
        (controlTick exAccelCool).fanAccelTimeout = none) ∧
      exAccel095.state = AppState.FAN_ACCEL ∧ exAccel095.temp > exAccel095.threshold ∧
      controlTick exAccel095 = exAccel095 :=
  ⟨rfl, by norm_num [exAccelCool],
    (C6_accel_tick exAccelCool rfl).1.2 (by norm_num [exAccelCool]),
    rfl, by norm_num [exAccel095],
    (C6_accel_tick exAccel095 rfl).2 (by norm_num [exAccel095])⟩

/-! ## Fields left alone by the callbacks and by the control tick -/

theorem controlTick_threshold (s : State) : (controlTick s).threshold = s.threshold := by
  unfold controlTick
  split <;> simp only [fanWrite] <;> split <;> rfl

theorem controlTick_canInput (s : State) : (controlTick s).canInput = s.canInput := by
  unfold controlTick
  split <;> simp only [fanWrite] <;> split <;> rfl

theorem controlTick_timeout (s : State) : (controlTick s).timeout = s.timeout := by
  unfold controlTick
  split <;> simp only [fanWrite] <;> split <;> rfl

theorem fanAccel_threshold (s : State) : (fanAccel s).threshold = s.threshold := by
  unfold fanAccel
  simp only [fanWrite]
  split_ifs <;> rfl

theorem fanAccel_canInput (s : State) : (fanAccel s).canInput = s.canInput := by
  unfold fanAccel
  simp only [fanWrite]
  split_ifs <;> rfl

theorem fanAccel_timeout (s : State) : (fanAccel s).timeout = s.timeout := by
  unfold fanAccel
  simp only [fanWrite]
  split_ifs <;> rfl

theorem touchHandling_fan (xsize : Int) (ts : TS_StateTypeDef) (s : State) :
    (touchHandling xsize ts s).fan = s.fan ∧
      (touchHandling xsize ts s).fanWrites = s.fanWrites := by
  unfold touchHandling
  split_ifs <;> exact ⟨rfl, rfl⟩

/-! ## The duty cycle range -/

theorem fanRange_fanWrite (v : ℚ) (s : State) (hv : 0.0 ≤ v ∧ v ≤ 1.0) (h : FanRange s) :
    FanRange (fanWrite v s) := by
  refine ⟨hv, ?_⟩
  intro w hw
  simp only [fanWrite, List.mem_cons] at hw
  rcases hw with rfl | hw
  · exact hv
  · exact h.2 w hw

theorem fanRange_controlTick (s : State) (h : FanRange s) : FanRange (controlTick s) := by
  have h0 : (0.0 : ℚ) ≤ 0.0 ∧ (0.0 : ℚ) ≤ 1.0 := by norm_num
  have h1 : (0.0 : ℚ) ≤ 0.1 ∧ (0.1 : ℚ) ≤ 1.0 := by norm_num
  have h2 : (0.0 : ℚ) ≤ 1.0 ∧ (1.0 : ℚ) ≤ 1.0 := by norm_num
  unfold controlTick
  split
  · have a := fanRange_fanWrite 0.0 s h0 h
    simp only []
    split
    · exact fanRange_fanWrite 0.1 _ h1 a
    · exact a
  · split
    · exact fanRange_fanWrite 0.0 _ h0 h
    · exact h
  · have a := fanRange_fanWrite 1.0 s h2 h
    simp only []
    split
    · exact fanRange_fanWrite 0.0 _ h0 a
    · exact a

theorem fanRange_fanAccel (s : State) (h : FanRange s) : FanRange (fanAccel s) := by
  by_cases hs : s.state = AppState.FAN_ACCEL
  · rcases lt_or_le s.fan 1 with hd | hd
    · rw [fanAccel_of_lt s hs hd]
      have e0 : (0.0 : ℚ) = 0 := by norm_num
      have e1 : (1.0 : ℚ) = 1 := by norm_num
      have h5 : (0 : ℚ) ≤ 0.05 := by norm_num
      have hf : (0 : ℚ) ≤ s.fan := e0 ▸ h.1.1
      have hv : (0.0 : ℚ) ≤ min (s.fan + 0.05) 1 ∧ min (s.fan + 0.05) 1 ≤ (1.0 : ℚ) := by
        rw [e0, e1]
        exact ⟨le_min (by linarith) (by norm_num), min_le_right _ _⟩
      exact fanRange_fanWrite _ s hv h
    · rw [fanAccel_of_ge s hs hd]
      exact h
  · rw [fanAccel_of_ne s hs]
    exact h

theorem fanRange_step (xsize : Int) (s : State) (e : Event) (h : FanRange s) :
    FanRange (step xsize s e) := by
  cases e with
  | mainLoop ts =>
    apply fanRange_controlTick
    obtain ⟨hf, hw⟩ := touchHandling_fan xsize ts s
    simpa [FanRange, hf, hw] using h
  | rampFire => exact fanRange_fanAccel _ h
  | resetFire => exact h
  | tempUpdate raw => exact h

/-- C7: in every state reachable from the initial state by any interleaving of
main-loop iterations (arbitrary touch input), ramp firings, debounce-reset
firings and temperature updates, the duty cycle lies in [0.0, 1.0], and so does
every value that has been written to the fan. -/
theorem C7_duty_in_unit_interval (xsize : Int) (s : State) (h : Reachable xsize s) :
    (0.0 ≤ s.fan ∧ s.fan ≤ 1.0) ∧ ∀ v ∈ s.fanWrites, 0.0 ≤ v ∧ v ≤ 1.0 := by
  induction h with
  | start raw =>
    refine ⟨?_, ?_⟩
    · norm_num [init]
    · intro v hv
      simp [init] at hv
  | next s e _ _ ih => exact fanRange_step xsize s e ih

/-- C7 at the state reached by a temperature update to 35 degrees followed by
a main-loop iteration (which starts the ramp) and one ramp firing. -/
theorem C7_duty_in_unit_interval_witness :
    Reachable 240 (step 240 (step 240 (step 240 exStart (Event.tempUpdate 0.35))
        (Event.mainLoop exTouchPlus)) Event.rampFire) ∧
      ((0.0 ≤ (step 240 (step 240 (step 240 exStart (Event.tempUpdate 0.35))
            (Event.mainLoop exTouchPlus)) Event.rampFire).fan ∧
          (step 240 (step 240 (step 240 exStart (Event.tempUpdate 0.35))
            (Event.mainLoop exTouchPlus)) Event.rampFire).fan ≤ 1.0) ∧
        ∀ v ∈ (step 240 (step 240 (step 240 exStart (Event.tempUpdate 0.35))
            (Event.mainLoop exTouchPlus)) Event.rampFire).fanWrites, 0.0 ≤ v ∧ v ≤ 1.0) := by
  have hr : Reachable 240 (step 240 (step 240 (step 240 exStart (Event.tempUpdate 0.35))
      (Event.mainLoop exTouchPlus)) Event.rampFire) := by
    refine Reachable.next _ _ (Reachable.next _ _ (Reachable.next _ _
      (Reachable.start 0.2) rfl) rfl) ?_
    norm_num [Event.enabled, step, mainLoopIter, controlTick, touchHandling, readThermometer,
      exStart, exTouchPlus, init, fanWrite, cround]
  exact ⟨hr, C7_duty_in_unit_interval 240 _ hr⟩

/-! ## Touch handling and the debounce gate -/

theorem touchHandling_plus (xsize : Int) (ts : TS_StateTypeDef) (s : State)
    (htouch : ts.TouchDetected = true) (hgate : s.canInput = true)
    (hin : 20 < ts.X ∧ ts.X < 80 ∧ 65 < ts.Y ∧ ts.Y < 125) :
    touchHandling xsize ts s =
      { s with led1 := true, threshold := s.threshold + 0.5,
               canInput := false, timeout := some 500 } := by
  obtain ⟨h1, h2, h3, h4⟩ := hin
  simp [touchHandling, htouch, hgate, h1, h2, h3, h4]

theorem touchHandling_minus (xsize : Int) (ts : TS_StateTypeDef) (s : State)
    (htouch : ts.TouchDetected = true) (hgate : s.canInput = true)
    (hin : xsize - 80 < ts.X ∧ ts.X < xsize - 20 ∧ 65 < ts.Y ∧ ts.Y < 125)
    (hout : ¬ (20 < ts.X ∧ ts.X < 80 ∧ 65 < ts.Y ∧ ts.Y < 125)) :
    touchHandling xsize ts s =
      { s with led2 := true, threshold := s.threshold - 0.5,
               canInput := false, timeout := some 500 } := by
  obtain ⟨h1, h2, h3, h4⟩ := hin
  have hout2 : ¬ (ts.X > 20 ∧ ts.X < 80 ∧ ts.Y < 125 ∧ ts.Y > 65) := by
    rintro ⟨a, b, c, d⟩
    exact hout ⟨a, b, d, c⟩
  have hin2 : ts.X > xsize - 80 ∧ ts.X < xsize - 20 ∧ ts.Y < 125 ∧ ts.Y > 65 :=
    ⟨h1, h2, h4, h3⟩
  simp only [touchHandling, htouch, hgate, Bool.and_self, if_true, if_neg hout2, if_pos hin2]

theorem touchHandling_closed (xsize : Int) (ts : TS_StateTypeDef) (s : State)
    (hgate : s.canInput = false) :
    touchHandling xsize ts s = { s with led1 := false, led2 := false } := by
  simp [touchHandling, hgate]

/-- With the gate closed a main-loop iteration keeps the threshold, the gate
and the reset timer. -/
theorem mainLoopIter_closed (xsize : Int) (ts : TS_StateTypeDef) (s : State)
    (hgate : s.canInput = false) :
    (mainLoopIter xsize ts s).threshold = s.threshold ∧
      (mainLoopIter xsize ts s).canInput = false ∧
      (mainLoopIter xsize ts s).timeout = s.timeout := by
  simp [mainLoopIter, controlTick_threshold, controlTick_canInput, controlTick_timeout,
    touchHandling_closed xsize ts s hgate, hgate]

/-- With the gate closed, every event other than the expiry of the reset timer
keeps it closed. -/
theorem step_gate_closed (xsize : Int) (s : State) (hgate : s.canInput = false) :
    ∀ e : Event, e ≠ Event.resetFire → (step xsize s e).canInput = false := by
  intro e he
  cases e with
  | mainLoop t => exact (mainLoopIter_closed xsize t s hgate).2.1
  | rampFire => exact (fanAccel_canInput _).trans hgate
  | resetFire => exact absurd rfl he
  | tempUpdate raw => exact hgate

/-- C8: in a main-loop iteration with touch active and the input gate open, a
coordinate in the increase hit-region adds 0.5 to the threshold, a coordinate in
the decrease hit-region (and not in the increase one) subtracts 0.5, and in both
cases the gate closes and the reset timer is armed (500 ms).  Scenario: after an
accepted touch in the increase region, a second touch taken before the reset
fires changes neither threshold, gate nor timer, and a third touch taken after
the reset (`ToggleInput`) has fired adds another 0.5 and closes the gate again. -/
theorem C8_touch_accept (xsize : Int) (ts : TS_StateTypeDef) (s : State)
    (htouch : ts.TouchDetected = true) (hgate : s.canInput = true) :
    ((20 < ts.X ∧ ts.X < 80 ∧ 65 < ts.Y ∧ ts.Y < 125) →
        (mainLoopIter xsize ts s).threshold = s.threshold + 0.5 ∧
        (mainLoopIter xsize ts s).canInput = false ∧
        (mainLoopIter xsize ts s).timeout = some 500) ∧
      ((xsize - 80 < ts.X ∧ ts.X < xsize - 20 ∧ 65 < ts.Y ∧ ts.Y < 125) →
        ¬ (20 < ts.X ∧ ts.X < 80 ∧ 65 < ts.Y ∧ ts.Y < 125) →
        (mainLoopIter xsize ts s).threshold = s.threshold - 0.5 ∧
        (mainLoopIter xsize ts s).canInput = false ∧
        (mainLoopIter xsize ts s).timeout = some 500) ∧
      ((20 < ts.X ∧ ts.X < 80 ∧ 65 < ts.Y ∧ ts.Y < 125) →
        (mainLoopIter xsize ts (mainLoopIter xsize ts s)).threshold = s.threshold + 0.5 ∧
        (mainLoopIter xsize ts (mainLoopIter xsize ts s)).canInput = false ∧
        (mainLoopIter xsize ts (mainLoopIter xsize ts s)).timeout = some 500 ∧
        (mainLoopIter xsize ts
            (toggleInputFire (mainLoopIter xsize ts (mainLoopIter xsize ts s)))).threshold
          = s.threshold + 0.5 + 0.5 ∧
        (mainLoopIter xsize ts
            (toggleInputFire (mainLoopIter xsize ts (mainLoopIter xsize ts s)))).canInput
          = false) := by
  have hplus : ∀ u : State, u.canInput = true →
      (20 < ts.X ∧ ts.X < 80 ∧ 65 < ts.Y ∧ ts.Y < 125) →
      (mainLoopIter xsize ts u).threshold = u.threshold + 0.5 ∧
        (mainLoopIter xsize ts u).canInput = false ∧
        (mainLoopIter xsize ts u).timeout = some 500 := by
    intro u hu hin
    simp [mainLoopIter, controlTick_threshold, controlTick_canInput, controlTick_timeout,
      touchHandling_plus xsize ts u htouch hu hin]
  refine ⟨hplus s hgate, ?_, ?_⟩
  · intro hin hout
    simp [mainLoopIter, controlTick_threshold, controlTick_canInput, controlTick_timeout,
      touchHandling_minus xsize ts s htouch hgate hin hout]
  · intro hin
    obtain ⟨a1, a2, a3⟩ := hplus s hgate hin
    obtain ⟨b1, b2, b3⟩ := mainLoopIter_closed xsize ts (mainLoopIter xsize ts s) a2
    have c0 : (toggleInputFire (mainLoopIter xsize ts (mainLoopIter xsize ts s))).canInput
        = true := rfl
    have c1 : (toggleInputFire (mainLoopIter xsize ts (mainLoopIter xsize ts s))).threshold
        = s.threshold + 0.5 := by
      rw [← a1, ← b1]
      rfl
    obtain ⟨d1, d2, -⟩ := hplus _ c0 hin
    exact ⟨b1.trans a1, b2, b3.trans a3, d1.trans (by rw [c1]), d2⟩

/-- C8 at the initial state with a touch in the increase region and one in
the decrease region of a display of width 240. -/
theorem C8_touch_accept_witness :
    exTouchPlus.TouchDetected = true ∧ exTouchMinus.TouchDetected = true ∧
      exStart.canInput = true ∧
      (20 < exTouchPlus.X ∧ exTouchPlus.X < 80 ∧ 65 < exTouchPlus.Y ∧ exTouchPlus.Y < 125) ∧
      (240 - 80 < exTouchMinus.X ∧ exTouchMinus.X < 240 - 20 ∧
        65 < exTouchMinus.Y ∧ exTouchMinus.Y < 125) ∧
      ¬ (20 < exTouchMinus.X ∧ exTouchMinus.X < 80 ∧
        65 < exTouchMinus.Y ∧ exTouchMinus.Y < 125) ∧
      ((mainLoopIter 240 exTouchPlus exStart).threshold = exStart.threshold + 0.5 ∧
        (mainLoopIter 240 exTouchPlus exStart).canInput = false ∧
        (mainLoopIter 240 exTouchPlus exStart).timeout = some 500) ∧
      ((mainLoopIter 240 exTouchMinus exStart).threshold = exStart.threshold - 0.5 ∧
        (mainLoopIter 240 exTouchMinus exStart).canInput = false ∧
        (mainLoopIter 240 exTouchMinus exStart).timeout = some 500) ∧
      (mainLoopIter 240 exTouchPlus
          (toggleInputFire (mainLoopIter 240 exTouchPlus
            (mainLoopIter 240 exTouchPlus exStart)))).threshold
        = exStart.threshold + 0.5 + 0.5 :=
  ⟨rfl, rfl, rfl, by decide, by decide, by decide,
    (C8_touch_accept 240 exTouchPlus exStart rfl rfl).1 (by decide),
    (C8_touch_accept 240 exTouchMinus exStart rfl rfl).2.1 (by decide) (by decide),
    ((C8_touch_accept 240 exTouchPlus exStart rfl rfl).2.2 (by decide)).2.2.2.1⟩

/-- C9: a main-loop iteration that starts with the input gate closed leaves
the threshold unchanged and the gate closed, whatever the touch state and
coordinates; no event other than the expiry of the reset timer opens the gate,
and that expiry (`ToggleInput`) does open it. -/
theorem C9_gate_closed_blocks (xsize : Int) (ts : TS_StateTypeDef) (s : State)
    (hgate : s.canInput = false) :
    (mainLoopIter xsize ts s).threshold = s.threshold ∧
      (mainLoopIter xsize ts s).canInput = false ∧
      (∀ e : Event, e ≠ Event.resetFire →
        (step xsize s e).canInput = false ∧ (step xsize s e).threshold = s.threshold) ∧
      (step xsize s Event.resetFire).canInput = true := by
  obtain ⟨h1, h2, -⟩ := mainLoopIter_closed xsize ts s hgate
  refine ⟨h1, h2, ?_, rfl⟩
  intro e he
  cases e with
  | mainLoop t =>
    obtain ⟨k1, k2, -⟩ := mainLoopIter_closed xsize t s hgate
    exact ⟨k2, k1⟩
  | rampFire =>
    exact ⟨(fanAccel_canInput _).trans hgate, fanAccel_threshold _⟩
  | resetFire => exact absurd rfl he
  | tempUpdate raw => exact ⟨hgate, rfl⟩

/-- C9 during a debounce window, with a touch in the increase region. -/
theorem C9_gate_closed_blocks_witness :
    exGateClosed.canInput = false ∧
      ((mainLoopIter 240 exTouchPlus exGateClosed).threshold = exGateClosed.threshold ∧
        (mainLoopIter 240 exTouchPlus exGateClosed).canInput = false ∧
        (∀ e : Event, e ≠ Event.resetFire →
          (step 240 exGateClosed e).canInput = false ∧
          (step 240 exGateClosed e).threshold = exGateClosed.threshold) ∧
        (step 240 exGateClosed Event.resetFire).canInput = true) :=
  ⟨rfl, C9_gate_closed_blocks 240 exTouchPlus exGateClosed rfl⟩

/-- What the touch handling does to the reset timer: either it leaves the
timer alone and keeps the threshold, or it arms it with 500 ms, closes the gate
and changes the threshold. -/
theorem touchHandling_cases (xsize : Int) (ts : TS_StateTypeDef) (s : State) :
    ((touchHandling xsize ts s).timeout = s.timeout ∧
        (touchHandling xsize ts s).threshold = s.threshold) ∨
      ((touchHandling xsize ts s).timeout = some 500 ∧
        (touchHandling xsize ts s).canInput = false ∧
        (touchHandling xsize ts s).threshold ≠ s.threshold) := by
  have hp : s.threshold + 0.5 ≠ s.threshold := by
    intro h
    have : (0.5 : ℚ) = 0 := by linarith
    norm_num at this
  have hm : s.threshold - 0.5 ≠ s.threshold := by
    intro h
    have : (0.5 : ℚ) = 0 := by linarith
    norm_num at this
  unfold touchHandling
  split_ifs
  · exact Or.inr ⟨rfl, rfl, hp⟩
  · exact Or.inr ⟨rfl, rfl, hm⟩
  · exact Or.inl ⟨rfl, rfl⟩
  · exact Or.inl ⟨rfl, rfl⟩

/-- The same case distinction for a whole main-loop iteration. -/
theorem mainLoopIter_cases (xsize : Int) (ts : TS_StateTypeDef) (s : State) :
    ((mainLoopIter xsize ts s).timeout = s.timeout ∧
        (mainLoopIter xsize ts s).threshold = s.threshold) ∨
      ((mainLoopIter xsize ts s).timeout = some 500 ∧
        (mainLoopIter xsize ts s).canInput = false ∧
        (mainLoopIter xsize ts s).threshold ≠ s.threshold) := by
  simp only [mainLoopIter, controlTick_threshold, controlTick_canInput, controlTick_timeout]
  exact touchHandling_cases xsize ts s

/-- While no reset fires, a closed gate stays closed. -/
theorem run_gate_closed (xsize : Int) (es : List Event) (s : State)
    (hgate : s.canInput = false) (hno : Event.resetFire ∉ es) :
    (run xsize s es).canInput = false := by
  induction es generalizing s with
  | nil => exact hgate
  | cons e es ih =>
    simp only [List.mem_cons, not_or] at hno
    simp only [run]
    apply ih _ _ hno.2
    have hne : e ≠ Event.resetFire := fun h => hno.1 h.symm
    exact ((step_gate_closed xsize s hgate) e hne)

/-- C10: in every event trace, between two main-loop iterations that each
change the threshold the debounce reset (`ToggleInput`) fires at least once; and
an event that takes the reset timer from idle to pending is a main-loop
iteration that changes the threshold, arming it with 500 ms. -/
theorem C10_accepts_separated_by_reset (xsize : Int) (s : State)
    (t1 t2 : TS_StateTypeDef) (mid : List Event)
    (h1 : (mainLoopIter xsize t1 s).threshold ≠ s.threshold)
    (h2 : (mainLoopIter xsize t2 (run xsize (mainLoopIter xsize t1 s) mid)).threshold ≠
      (run xsize (mainLoopIter xsize t1 s) mid).threshold)
    (u : State) (e : Event) (hu : u.timeout = none)
    (he : (step xsize u e).timeout ≠ none) :
    Event.resetFire ∈ mid ∧
      ((∃ ts, e = Event.mainLoop ts) ∧ (step xsize u e).threshold ≠ u.threshold ∧
        (step xsize u e).timeout = some 500) := by
  constructor
  · by_contra hno
    have hc : (mainLoopIter xsize t1 s).canInput = false := by
      rcases mainLoopIter_cases xsize t1 s with h | h
      · exact absurd h.2 h1
      · exact h.2.1
    have hr := run_gate_closed xsize mid _ hc hno
    exact h2 (mainLoopIter_closed xsize t2 _ hr).1
  · cases e with
    | mainLoop ts =>
      rcases mainLoopIter_cases xsize ts u with h | h
      · exact absurd (h.1.trans hu) he
      · exact ⟨⟨ts, rfl⟩, h.2.2, h.1⟩
    | rampFire =>
      exact absurd (show (step xsize u Event.rampFire).timeout = none from
        (fanAccel_timeout _).trans hu) he
    | resetFire => exact absurd rfl he
    | tempUpdate raw => exact absurd hu he

/-- C10 on the trace: accepted touch, touch during the window, reset, sensor
refresh, accepted touch. -/
theorem C10_accepts_separated_by_reset_witness :
    (mainLoopIter 240 exTouchPlus exStart).threshold ≠ exStart.threshold ∧
      (mainLoopIter 240 exTouchMinus
          (run 240 (mainLoopIter 240 exTouchPlus exStart) exBetween)).threshold ≠
        (run 240 (mainLoopIter 240 exTouchPlus exStart) exBetween).threshold ∧
      exStart.timeout = none ∧
      (step 240 exStart (Event.mainLoop exTouchPlus)).timeout ≠ none ∧
      (Event.resetFire ∈ exBetween ∧
        ((∃ ts, Event.mainLoop exTouchPlus = Event.mainLoop ts) ∧
          (step 240 exStart (Event.mainLoop exTouchPlus)).threshold ≠ exStart.threshold ∧
          (step 240 exStart (Event.mainLoop exTouchPlus)).timeout = some 500)) := by
  have a1 : (mainLoopIter 240 exTouchPlus exStart).threshold ≠ exStart.threshold := by
    norm_num [mainLoopIter, controlTick_threshold, touchHandling, exTouchPlus, exStart, init]
  have a2 : (mainLoopIter 240 exTouchMinus
      (run 240 (mainLoopIter 240 exTouchPlus exStart) exBetween)).threshold ≠
      (run 240 (mainLoopIter 240 exTouchPlus exStart) exBetween).threshold := by
    norm_num [exBetween, run, step, readThermometer, toggleInputFire, ToggleInput, mainLoopIter,
      controlTick_threshold, controlTick_canInput, touchHandling, exTouchPlus, exTouchMinus,
      exStart, init]
  have a3 : (step 240 exStart (Event.mainLoop exTouchPlus)).timeout ≠ none := by
    simp [step, mainLoopIter, controlTick_timeout, touchHandling, exTouchPlus, exStart, init]
  exact ⟨a1, a2, rfl, a3,
    C10_accepts_separated_by_reset 240 exStart exTouchPlus exTouchMinus exBetween a1 a2
      exStart (Event.mainLoop exTouchPlus) rfl a3⟩

/-! ## A touch outside both hit-regions -/

/-- C11 as stated fails: at the initial state a touch outside both hit-regions
does not close the gate and arm the reset timer. -/
theorem C11_touch_outside_counterexample :
    ¬ ((mainLoopIter 240 exTouchOutside exStart).threshold = exStart.threshold ∧
        (mainLoopIter 240 exTouchOutside exStart).canInput = false ∧
        (mainLoopIter 240 exTouchOutside exStart).timeout = some 500) := by
  have h : (mainLoopIter 240 exTouchOutside exStart).canInput = true := by
    simp [mainLoopIter, controlTick_canInput, touchHandling, exTouchOutside, exStart, init]
  rw [h]
  simp

/-- C11 (amended): in a main-loop iteration with touch active and the input
gate open where the coordinate lies outside both hit-regions, the touch handling
changes nothing at all: the threshold is unchanged, the gate stays open and the
reset timer is not armed. -/
theorem C11_touch_outside (xsize : Int) (ts : TS_StateTypeDef) (s : State)
    (htouch : ts.TouchDetected = true) (hgate : s.canInput = true)
    (hplus : ¬ (20 < ts.X ∧ ts.X < 80 ∧ 65 < ts.Y ∧ ts.Y < 125))
    (hminus : ¬ (xsize - 80 < ts.X ∧ ts.X < xsize - 20 ∧ 65 < ts.Y ∧ ts.Y < 125)) :
    touchHandling xsize ts s = s ∧
      (mainLoopIter xsize ts s).threshold = s.threshold ∧
      (mainLoopIter xsize ts s).canInput = true ∧
      (mainLoopIter xsize ts s).timeout = s.timeout := by
  have h1 : ¬ (ts.X > 20 ∧ ts.X < 80 ∧ ts.Y < 125 ∧ ts.Y > 65) := by
    rintro ⟨a, b, c, d⟩
    exact hplus ⟨a, b, d, c⟩
  have h2 : ¬ (ts.X > xsize - 80 ∧ ts.X < xsize - 20 ∧ ts.Y < 125 ∧ ts.Y > 65) := by
    rintro ⟨a, b, c, d⟩
    exact hminus ⟨a, b, d, c⟩
  have ht : touchHandling xsize ts s = s := by
    simp only [touchHandling, htouch, hgate, Bool.and_self, if_true, if_neg h1, if_neg h2]
  refine ⟨ht, ?_, ?_, ?_⟩
  · rw [mainLoopIter, controlTick_threshold, ht]
  · rw [mainLoopIter, controlTick_canInput, ht, hgate]
  · rw [mainLoopIter, controlTick_timeout, ht]

/-- C11 (amended) at the initial state with a touch at (120, 100) on a display
of width 240. -/
theorem C11_touch_outside_witness :
    exTouchOutside.TouchDetected = true ∧ exStart.canInput = true ∧
      ¬ (20 < exTouchOutside.X ∧ exTouchOutside.X < 80 ∧
        65 < exTouchOutside.Y ∧ exTouchOutside.Y < 125) ∧
      ¬ (240 - 80 < exTouchOutside.X ∧ exTouchOutside.X < 240 - 20 ∧
        65 < exTouchOutside.Y ∧ exTouchOutside.Y < 125) ∧
      (touchHandling 240 exTouchOutside exStart = exStart ∧
        (mainLoopIter 240 exTouchOutside exStart).threshold = exStart.threshold ∧
        (mainLoopIter 240 exTouchOutside exStart).canInput = true ∧
        (mainLoopIter 240 exTouchOutside exStart).timeout = exStart.timeout) :=
  ⟨rfl, rfl, by decide, by decide,
    C11_touch_outside 240 exTouchOutside exStart rfl rfl (by decide) (by decide)⟩

/-! ## What the interrupt-context callbacks do -/

/-- The action list of `fanAccel` has the effect of `fanAccel`. -/
theorem runActions_fanAccel (s : State) : runActions s (fanAccelActions s) = fanAccel s := by
  by_cases hs : s.state = AppState.FAN_ACCEL
  · by_cases hd : s.fan < 1.0
    · simp [fanAccelActions, fanAccel, runActions, Action.apply, fanWrite, hs, hd]
    · simp [fanAccelActions, fanAccel, runActions, Action.apply, hs, hd]
  · simp [fanAccelActions, fanAccel, runActions, hs]

/-- The action list of `ToggleInput` has the effect of `ToggleInput`. -/
theorem runActions_ToggleInput (s : State) :
    runActions s ToggleInputActions = ToggleInput s := rfl

/-- The action list of `readThermometer` has the effect of `readThermometer`. -/
theorem runActions_readThermometer (raw : ℚ) (s : State) :
    runActions s (readThermometerActions raw) = readThermometer raw s := rfl

/-- The handler `updateTemp` changes none of the modelled variables. -/
theorem runActions_updateTemp (s : State) : runActions s updateTempActions = s := rfl

/-- C12 as stated fails: `updateTemp` does call the display driver. -/
theorem C12_isr_actions_counterexample :
    ¬ ((∀ a ∈ updateTempActions,
          a.kind ≠ ActionKind.displayCall ∧ a.kind ≠ ActionKind.sensorRead) ∧
        (∀ s : State, ∀ a ∈ updateTempActions ++ fanAccelActions s ++ ToggleInputActions,
          a.kind ∈ [ActionKind.flagWrite, ActionKind.timerArm, ActionKind.actuatorWrite,
            ActionKind.indicatorWrite, ActionKind.enqueue])) := by
  rintro ⟨h, -⟩
  exact (h Action.lcdClear (by simp [updateTempActions])).1 rfl

/-- C12 (amended): the ticker handler `updateTemp` enqueues the sensor-read
work item and then calls the display driver (`LCD.Clear`): these are its only
two actions and none of them is a direct sensor read, which is done by the
queued `readThermometer`.  The actions of the two timeout callbacks `fanAccel`
and `ToggleInput` are flag writes, timer arming, reads and writes of the
actuator and indicator writes: no display-driver call and no sensor read. -/
theorem C12_isr_actions :
    updateTempActions.map Action.kind = [ActionKind.enqueue, ActionKind.displayCall] ∧
      updateTempActions.head? = some (Action.queueCall Work.readThermometer) ∧
      (∀ a ∈ updateTempActions, a.kind ≠ ActionKind.sensorRead) ∧
      (∀ raw : ℚ, Action.lm35Read ∈ readThermometerActions raw) ∧
      (∀ s : State, ∀ a ∈ fanAccelActions s ++ ToggleInputActions,
        a.kind ∈ [ActionKind.flagWrite, ActionKind.timerArm, ActionKind.actuatorRead,
          ActionKind.actuatorWrite, ActionKind.indicatorWrite]) := by
  refine ⟨rfl, rfl, ?_, ?_, ?_⟩
  · intro a ha
    simp only [updateTempActions, List.mem_cons, List.mem_singleton, List.not_mem_nil,
      or_false] at ha
    rcases ha with rfl | rfl <;> simp [Action.kind]
  · intro raw
    simp [readThermometerActions]
  · intro s a ha
    rw [List.mem_append] at ha
    rcases ha with ha | ha
    · by_cases hs : s.state = AppState.FAN_ACCEL
      · by_cases hd : s.fan < 1.0
        · simp only [fanAccelActions, hs, hd, if_true, List.mem_cons, List.mem_singleton,
            List.not_mem_nil, or_false] at ha
          rcases ha with rfl | rfl | rfl | rfl | rfl <;> simp [Action.kind]
        · simp only [fanAccelActions, hs, hd, if_true, if_false, List.mem_cons,
            List.mem_singleton, List.not_mem_nil, or_false] at ha
          rcases ha with rfl | rfl | rfl | rfl <;> simp [Action.kind]
      · simp [fanAccelActions, hs] at ha
    · simp only [ToggleInputActions, List.mem_singleton] at ha
      subst ha
      simp [Action.kind]

/-! ## Indicators on the way back to Idle -/

/-- A run of enabled events from a reachable state ends in a reachable state. -/
theorem reachable_run (xsize : Int) (es : List Event) (s : State)
    (hs : Reachable xsize s) (hen : runEnabled xsize s es = true) :
    Reachable xsize (run xsize s es) := by
  induction es generalizing s with
  | nil => exact hs
  | cons e es ih =>
    simp only [runEnabled, Bool.and_eq_true] at hen
    exact ih _ (Reachable.next s e hs hen.1) hen.2

/-- C13 fails on the path from MaxSpeed: the control tick taken in MaxSpeed
with indicator `led2` on (as `fanAccel` leaves it on entering MaxSpeed) and
temperature 20.0 <= threshold 25.0 yields Idle with `led2` still on.  The same
happens in a whole main-loop iteration of a reachable state: after the run
`exTraceToMax` the state is MaxSpeed with `led2` on, and an iteration with a
touch outside both hit-regions ends in Idle with `led2` on. -/
theorem C13_max_to_idle_keeps_indicator :
    exMaxCool.state = AppState.FAN_MAX ∧ exMaxCool.temp ≤ exMaxCool.threshold ∧
      (controlTick exMaxCool).state = AppState.IDLE ∧
      (controlTick exMaxCool).led2 = true ∧
      Reachable 240 (run 240 exStart exTraceToMax) ∧
      (run 240 exStart exTraceToMax).state = AppState.FAN_MAX ∧
      (mainLoopIter 240 exTouchOutside (run 240 exStart exTraceToMax)).state = AppState.IDLE ∧
      (mainLoopIter 240 exTouchOutside (run 240 exStart exTraceToMax)).led2 = true := by
  refine ⟨rfl, by norm_num [exMaxCool], ?_, ?_, ?_, ?_, ?_, ?_⟩
  · norm_num [controlTick, exMaxCool, init, fanWrite]
  · norm_num [controlTick, exMaxCool, init, fanWrite]
  · apply reachable_run 240 exTraceToMax exStart (Reachable.start 0.2)
    norm_num [runEnabled, Event.enabled, exTraceToMax, step, List.replicate, fanAccelFire,
      fanAccel, mainLoopIter, controlTick, touchHandling, readThermometer, exNoTouch, exStart,
      init, fanWrite, cround]
  · norm_num [exTraceToMax, run, step, List.replicate, fanAccelFire, fanAccel, mainLoopIter,
      controlTick, touchHandling, readThermometer, exNoTouch, exStart, init, fanWrite, cround]
  · norm_num [exTraceToMax, run, step, List.replicate, fanAccelFire, fanAccel, mainLoopIter,
      controlTick, touchHandling, readThermometer, exNoTouch, exTouchOutside, exStart, init,
      fanWrite, cround]
  · norm_num [exTraceToMax, run, step, List.replicate, fanAccelFire, fanAccel, mainLoopIter,
      controlTick, touchHandling, readThermometer, exNoTouch, exTouchOutside, exStart, init,
      fanWrite, cround]

/-! ## The ramp schedule -/

theorem fanAccelFire_of_lt (s : State) (h : s.state = AppState.FAN_ACCEL) (hd : s.fan < 1) :
    (fanAccelFire s).state = AppState.FAN_ACCEL ∧
      (fanAccelFire s).fan = min (s.fan + 0.05) 1 ∧
      (fanAccelFire s).fanAccelTimeout = some 100 := by
  have e : fanAccelFire s = fanAccel { s with fanAccelTimeout := none } := rfl
  have a := fanAccel_of_lt { s with fanAccelTimeout := none } h hd
  rw [e, a]
  exact ⟨h, rfl, rfl⟩

theorem fanAccelFire_of_ge (s : State) (h : s.state = AppState.FAN_ACCEL) (hd : 1 ≤ s.fan) :
    (fanAccelFire s).state = AppState.FAN_MAX ∧ (fanAccelFire s).fan = s.fan ∧
      (fanAccelFire s).fanAccelTimeout = none := by
  have e : fanAccelFire s = fanAccel { s with fanAccelTimeout := none } := rfl
  have a := fanAccel_of_ge { s with fanAccelTimeout := none } h hd
  rw [e, a]
  exact ⟨rfl, rfl, rfl⟩

/-- From Accelerating with duty cycle 0.1 and the ramp timer pending, the first
eighteen expiries step the duty cycle by 0.05 and keep the ramp going. -/
theorem fanAccelFireIter_schedule (s : State) (hs : s.state = AppState.FAN_ACCEL)
    (hf : s.fan = 0.1) (ha : s.fanAccelTimeout = some 100) (k : ℕ) (hk : k ≤ 18) :
    (fanAccelFireIter s k).state = AppState.FAN_ACCEL ∧
      (fanAccelFireIter s k).fan = 0.1 + 0.05 * (k : ℚ) ∧
      (fanAccelFireIter s k).fanAccelTimeout = some 100 := by
  induction k with
  | zero => exact ⟨hs, by simp [fanAccelFireIter, hf], ha⟩
  | succ k ih =>
    obtain ⟨i1, i2, -⟩ := ih (by omega)
    have hk17 : (k : ℚ) ≤ 17 := by exact_mod_cast (by omega : k ≤ 17)
    have hlt : (fanAccelFireIter s k).fan < 1 := by
      rw [i2]
      norm_num
      linarith
    obtain ⟨j1, j2, j3⟩ := fanAccelFire_of_lt _ i1 hlt
    refine ⟨j1, ?_, j3⟩
    show (fanAccelFire (fanAccelFireIter s k)).fan = _
    rw [j2, i2, min_eq_left]
    · push_cast
      ring
    · norm_num
      linarith

/-- C14: with exact decimal arithmetic, starting from the state produced by
the Idle-to-Accelerating tick (duty cycle 0.1), for every k <= 18 (so for every
k with 1 <= k <= 18) the k-th ramp firing sets the duty cycle to 0.1 + 0.05*k,
keeps the state Accelerating and re-arms the ramp timer (100 ms); the duty cycle
is exactly 1.0 after the 18th firing; the 19th firing sets the state to
MaxSpeed, leaves the duty cycle unchanged and does not re-arm the timer. -/
theorem C14_ramp_schedule (s : State) (hs : s.state = AppState.IDLE)
    (ht : s.temp > s.threshold) (k : ℕ) (h18 : k ≤ 18) :
    ((fanAccelFireIter (controlTick s) k).fan = 0.1 + 0.05 * (k : ℚ) ∧
        (fanAccelFireIter (controlTick s) k).state = AppState.FAN_ACCEL ∧
        (fanAccelFireIter (controlTick s) k).fanAccelTimeout = some 100) ∧
      (fanAccelFireIter (controlTick s) 18).fan = 1.0 ∧
      ((fanAccelFireIter (controlTick s) 19).state = AppState.FAN_MAX ∧
        (fanAccelFireIter (controlTick s) 19).fan = (fanAccelFireIter (controlTick s) 18).fan ∧
        (fanAccelFireIter (controlTick s) 19).fanAccelTimeout = none) := by
  have c1 : (controlTick s).state = AppState.FAN_ACCEL := by
    simp [controlTick, hs, fanWrite, ht]
  have c2 : (controlTick s).fan = 0.1 := by
    simp [controlTick, hs, fanWrite, ht]
  have c3 : (controlTick s).fanAccelTimeout = some 100 := by
    simp [controlTick, hs, fanWrite, ht]
  obtain ⟨a1, a2, a3⟩ := fanAccelFireIter_schedule _ c1 c2 c3 k h18
  obtain ⟨b1, b2, -⟩ := fanAccelFireIter_schedule _ c1 c2 c3 18 (le_refl 18)
  have b3 : (fanAccelFireIter (controlTick s) 18).fan = 1.0 := by
    rw [b2]
    norm_num
  have hge : 1 ≤ (fanAccelFireIter (controlTick s) 18).fan := by
    rw [b3]
    norm_num
  exact ⟨⟨a2, a1, a3⟩, b3, fanAccelFire_of_ge _ b1 hge⟩

/-- C14 from Idle at temperature 30.0 and threshold 29.0, at the 7th firing. -/
theorem C14_ramp_schedule_witness :
    exIdleHot.state = AppState.IDLE ∧ exIdleHot.temp > exIdleHot.threshold ∧
      (7 : ℕ) ≤ 18 ∧
      (((fanAccelFireIter (controlTick exIdleHot) 7).fan = 0.1 + 0.05 * ((7 : ℕ) : ℚ) ∧
          (fanAccelFireIter (controlTick exIdleHot) 7).state = AppState.FAN_ACCEL ∧
          (fanAccelFireIter (controlTick exIdleHot) 7).fanAccelTimeout = some 100) ∧
        (fanAccelFireIter (controlTick exIdleHot) 18).fan = 1.0 ∧
        ((fanAccelFireIter (controlTick exIdleHot) 19).state = AppState.FAN_MAX ∧
          (fanAccelFireIter (controlTick exIdleHot) 19).fan =
            (fanAccelFireIter (controlTick exIdleHot) 18).fan ∧
          (fanAccelFireIter (controlTick exIdleHot) 19).fanAccelTimeout = none)) :=
  ⟨rfl, by norm_num [exIdleHot], by decide,
    C14_ramp_schedule exIdleHot rfl (by norm_num [exIdleHot]) 7 (by decide)⟩

/-! ## How MaxSpeed is entered -/

theorem touchHandling_state (xsize : Int) (ts : TS_StateTypeDef) (s : State) :
    (touchHandling xsize ts s).state = s.state ∧
      (touchHandling xsize ts s).fanAccelTimeout = s.fanAccelTimeout := by
  unfold touchHandling
  split_ifs <;> exact ⟨rfl, rfl⟩

theorem controlTick_not_max (s : State) (hs : s.state ≠ AppState.FAN_MAX) :
    (controlTick s).state ≠ AppState.FAN_MAX := by
  cases h : s.state with
  | IDLE =>
    by_cases ht : s.temp > s.threshold <;> simp [controlTick, h, fanWrite, ht]
  | FAN_ACCEL =>
    by_cases ht : s.temp ≤ s.threshold <;> simp [controlTick, h, fanWrite, ht]
  | FAN_MAX => exact absurd h hs

/-- C15: a control tick taken in Idle or Accelerating never yields MaxSpeed
(nor does a whole main-loop iteration); an event that changes the state to
MaxSpeed is a ramp firing taken in Accelerating with duty cycle >= 1.0, and
every such firing does enter MaxSpeed. -/
theorem C15_max_only_from_ramp (xsize : Int) (s : State) (e : Event)
    (hs : s.state ≠ AppState.FAN_MAX) :
    (controlTick s).state ≠ AppState.FAN_MAX ∧
      (∀ ts : TS_StateTypeDef, (mainLoopIter xsize ts s).state ≠ AppState.FAN_MAX) ∧
      ((step xsize s e).state = AppState.FAN_MAX →
        e = Event.rampFire ∧ s.state = AppState.FAN_ACCEL ∧ 1.0 ≤ s.fan) ∧
      (s.state = AppState.FAN_ACCEL → 1.0 ≤ s.fan →
        (step xsize s Event.rampFire).state = AppState.FAN_MAX) := by
  have e1 : (1.0 : ℚ) = 1 := by norm_num
  have hloop : ∀ ts : TS_StateTypeDef, (mainLoopIter xsize ts s).state ≠ AppState.FAN_MAX := by
    intro ts
    apply controlTick_not_max
    rw [(touchHandling_state xsize ts s).1]
    exact hs
  refine ⟨controlTick_not_max s hs, hloop, ?_, ?_⟩
  · intro hm
    cases e with
    | mainLoop ts => exact absurd hm (hloop ts)
    | rampFire =>
      refine ⟨rfl, ?_⟩
      by_cases ha : s.state = AppState.FAN_ACCEL
      · refine ⟨ha, ?_⟩
        rw [e1]
        by_contra hlt
        have h2 := (fanAccelFire_of_lt s ha (not_le.mp hlt)).1
        have h3 : (fanAccelFire s).state = AppState.FAN_MAX := hm
        rw [h2] at h3
        exact absurd h3 (by decide)
      · have h2 : fanAccelFire s = { s with fanAccelTimeout := none } :=
          fanAccel_of_ne { s with fanAccelTimeout := none } ha
        have h3 : (fanAccelFire s).state = AppState.FAN_MAX := hm
        rw [h2] at h3
        exact absurd h3 hs
    | resetFire => exact absurd hm hs
    | tempUpdate raw => exact absurd hm hs
  · intro ha hd
    rw [e1] at hd
    exact (fanAccelFire_of_ge s ha hd).1

/-- C15 at Accelerating with duty cycle 1.0, for the ramp firing. -/
theorem C15_max_only_from_ramp_witness :
    exAccelFull.state ≠ AppState.FAN_MAX ∧
      ((controlTick exAccelFull).state ≠ AppState.FAN_MAX ∧
        (∀ ts : TS_StateTypeDef, (mainLoopIter 240 ts exAccelFull).state ≠ AppState.FAN_MAX) ∧
        ((step 240 exAccelFull Event.rampFire).state = AppState.FAN_MAX →
          Event.rampFire = Event.rampFire ∧ exAccelFull.state = AppState.FAN_ACCEL ∧
            1.0 ≤ exAccelFull.fan) ∧
        (exAccelFull.state = AppState.FAN_ACCEL → 1.0 ≤ exAccelFull.fan →
          (step 240 exAccelFull Event.rampFire).state = AppState.FAN_MAX)) :=
  ⟨by decide, C15_max_only_from_ramp 240 exAccelFull Event.rampFire (by decide)⟩

/-! ## Invariants of the reachable states -/

theorem stateDuty_controlTick (s : State) (h : StateDuty s) : StateDuty (controlTick s) := by
  obtain ⟨-, -, h3⟩ := h
  cases hs : s.state with
  | IDLE =>
    by_cases ht : s.temp > s.threshold
    · simp [StateDuty, controlTick, hs, fanWrite, ht]
      norm_num
    · simp [StateDuty, controlTick, hs, fanWrite, ht]
  | FAN_ACCEL =>
    by_cases ht : s.temp ≤ s.threshold
    · simp [StateDuty, controlTick, hs, fanWrite, ht]
    · have e : controlTick s = s := by simp [controlTick, hs, ht]
      rw [e]
      exact ⟨fun h => by simp [hs] at h, fun h => by simp [hs] at h, h3⟩
  | FAN_MAX =>
    by_cases ht : s.temp ≤ s.threshold
    · simp [StateDuty, controlTick, hs, fanWrite, ht]
    · simp [StateDuty, controlTick, hs, fanWrite, ht]

theorem stateDuty_fanAccel (s : State) (h : StateDuty s) : StateDuty (fanAccel s) := by
  have e1 : (1.0 : ℚ) = 1 := by norm_num
  by_cases hs : s.state = AppState.FAN_ACCEL
  · obtain ⟨hlo, hhi⟩ := h.2.2 hs
    rw [e1] at hhi
    rcases lt_or_le s.fan 1 with hd | hd
    · rw [fanAccel_of_lt s hs hd]
      refine ⟨fun k => ?_, fun k => ?_, fun _ => ⟨?_, ?_⟩⟩
      · simp [hs] at k
      · simp [hs] at k
      · refine le_min ?_ (by norm_num)
        have h5 : (0 : ℚ) ≤ 0.05 := by norm_num
        show (0.1 : ℚ) ≤ s.fan + 0.05
        linarith
      · rw [e1]
        exact min_le_right _ _
    · rw [fanAccel_of_ge s hs hd]
      refine ⟨fun k => ?_, fun _ => ?_, fun k => ?_⟩
      · simp at k
      · rw [e1]
        exact le_antisymm hhi hd
      · simp at k
  · rw [fanAccel_of_ne s hs]
    exact h

theorem stateDuty_step (xsize : Int) (s : State) (e : Event) (h : StateDuty s) :
    StateDuty (step xsize s e) := by
  cases e with
  | mainLoop ts =>
    apply stateDuty_controlTick
    have hf := (touchHandling_fan xsize ts s).1
    have hst := (touchHandling_state xsize ts s).1
    simpa [StateDuty, hf, hst] using h
  | rampFire => exact stateDuty_fanAccel _ h
  | resetFire => exact h
  | tempUpdate raw => exact h

/-- C17: in every state reachable from the initial state by any interleaving
of main-loop iterations (control ticks, with touch-driven threshold changes),
ramp firings and temperature updates, the control state determines the duty
cycle: Idle implies 0.0, MaxSpeed implies 1.0, Accelerating implies a duty
cycle in [0.1, 1.0]. -/
theorem C17_state_determines_duty (xsize : Int) (s : State) (h : Reachable xsize s) :
    (s.state = AppState.IDLE → s.fan = 0.0) ∧
      (s.state = AppState.FAN_MAX → s.fan = 1.0) ∧
      (s.state = AppState.FAN_ACCEL → 0.1 ≤ s.fan ∧ s.fan ≤ 1.0) := by
  induction h with
  | start raw => simp [init]
  | next s e _ _ ih => exact stateDuty_step xsize s e ih

theorem exTraceRamp_reachable : Reachable 240 (run 240 exStart exTraceRamp) := by
  apply reachable_run 240 exTraceRamp exStart (Reachable.start 0.2)
  norm_num [runEnabled, Event.enabled, exTraceRamp, step, mainLoopIter, controlTick,
    touchHandling, readThermometer, exTouchPlus, exStart, init, fanWrite, cround]

/-- C17 at the state reached by `exTraceRamp`. -/
theorem C17_state_determines_duty_witness :
    Reachable 240 (run 240 exStart exTraceRamp) ∧
      (((run 240 exStart exTraceRamp).state = AppState.IDLE →
          (run 240 exStart exTraceRamp).fan = 0.0) ∧
        ((run 240 exStart exTraceRamp).state = AppState.FAN_MAX →
          (run 240 exStart exTraceRamp).fan = 1.0) ∧
        ((run 240 exStart exTraceRamp).state = AppState.FAN_ACCEL →
          0.1 ≤ (run 240 exStart exTraceRamp).fan ∧ (run 240 exStart exTraceRamp).fan ≤ 1.0)) :=
  ⟨exTraceRamp_reachable, C17_state_determines_duty 240 _ exTraceRamp_reachable⟩

theorem timerMatches_controlTick (s : State) (h : TimerMatchesState s) :
    TimerMatchesState (controlTick s) := by
  unfold TimerMatchesState at h ⊢
  cases hs : s.state with
  | IDLE =>
    have hn : s.fanAccelTimeout.isSome = false := by
      cases hq : s.fanAccelTimeout.isSome
      · rfl
      · simp [h.mp hq] at hs
    by_cases ht : s.temp > s.threshold
    · simp [controlTick, hs, fanWrite, ht]
    · simp [controlTick, hs, fanWrite, ht, hn]
  | FAN_ACCEL =>
    by_cases ht : s.temp ≤ s.threshold
    · simp [controlTick, hs, fanWrite, ht]
    · have e : controlTick s = s := by simp [controlTick, hs, ht]
      rw [e]
      exact h
  | FAN_MAX =>
    have hn : s.fanAccelTimeout.isSome = false := by
      cases hq : s.fanAccelTimeout.isSome
      · rfl
      · simp [h.mp hq] at hs
    by_cases ht : s.temp ≤ s.threshold
    · simp [controlTick, hs, fanWrite, ht, hn]
    · simp [controlTick, hs, fanWrite, ht, hn]

theorem timerMatches_fanAccelFire (s : State) : TimerMatchesState (fanAccelFire s) := by
  unfold TimerMatchesState
  by_cases hs : s.state = AppState.FAN_ACCEL
  · rcases lt_or_le s.fan 1 with hd | hd
    · obtain ⟨a, -, c⟩ := fanAccelFire_of_lt s hs hd
      simp [a, c]
    · obtain ⟨a, -, c⟩ := fanAccelFire_of_ge s hs hd
      simp [a, c]
  · have e : fanAccelFire s = { s with fanAccelTimeout := none } :=
      fanAccel_of_ne { s with fanAccelTimeout := none } hs
    rw [e]
    simp [hs]

theorem timerMatches_step (xsize : Int) (s : State) (e : Event) (h : TimerMatchesState s) :
    TimerMatchesState (step xsize s e) := by
  cases e with
  | mainLoop ts =>
    apply timerMatches_controlTick
    obtain ⟨hst, hti⟩ := touchHandling_state xsize ts s
    simpa [TimerMatchesState, hst, hti] using h
  | rampFire => exact timerMatches_fanAccelFire s
  | resetFire => exact h
  | tempUpdate raw => exact h

/-- C18: in every state reachable from the initial state by any interleaving
of main-loop iterations, ramp firings (which consume the one-shot timer and
occur only while it is pending), reset firings and temperature updates, the ramp
timer `fanAccelTimeout` is pending if and only if the control state is
Accelerating. -/
theorem C18_timer_armed_iff_accelerating (xsize : Int) (s : State)
    (h : Reachable xsize s) :
    s.fanAccelTimeout.isSome = true ↔ s.state = AppState.FAN_ACCEL := by
  induction h with
  | start raw => simp [init]
  | next s e _ _ ih => exact timerMatches_step xsize s e ih

/-- C18 at the state reached by `exTraceRamp`, where the timer is pending and
the state is Accelerating. -/
theorem C18_timer_armed_iff_accelerating_witness :
    Reachable 240 (run 240 exStart exTraceRamp) ∧
      ((run 240 exStart exTraceRamp).fanAccelTimeout.isSome = true ↔
        (run 240 exStart exTraceRamp).state = AppState.FAN_ACCEL) ∧
      (run 240 exStart exTraceRamp).state = AppState.FAN_ACCEL :=
  ⟨exTraceRamp_reachable, C18_timer_armed_iff_accelerating 240 _ exTraceRamp_reachable, by
    norm_num [exTraceRamp, run, step, fanAccelFire, fanAccel, mainLoopIter, controlTick,
      touchHandling, readThermometer, exTouchPlus, exStart, init, fanWrite, cround]⟩

/-! ## The initial threshold -/

/-- C `round` is within one half of its argument. -/
theorem cround_bounds (x : ℚ) : x - 1 / 2 ≤ (cround x : ℚ) ∧ (cround x : ℚ) ≤ x + 1 / 2 := by
  unfold cround
  split_ifs with h
  · have a := Int.floor_le (x + 1 / 2)
    have b := Int.lt_floor_add_one (x + 1 / 2)
    constructor <;> linarith
  · have a := Int.le_ceil (x - 1 / 2)
    have b := Int.ceil_lt_add_one (x - 1 / 2)
    constructor <;> linarith

theorem controlTick_idle_cool (s : State) (hs : s.state = AppState.IDLE)
    (ht : s.temp ≤ s.threshold) :
    (controlTick s).state = AppState.IDLE ∧ (controlTick s).fan = 0.0 := by
  simp [controlTick, hs, fanWrite, not_lt.mpr ht]

theorem touchHandling_threshold (xsize : Int) (ts : TS_StateTypeDef) (s : State) :
    s.threshold - 0.5 ≤ (touchHandling xsize ts s).threshold ∧
      (touchHandling xsize ts s).temp = s.temp := by
  have h5 : (0 : ℚ) ≤ 0.5 := by norm_num
  unfold touchHandling
  split_ifs
  · exact ⟨by show s.threshold - 0.5 ≤ s.threshold + 0.5; linarith, rfl⟩
  · exact ⟨le_refl _, rfl⟩
  · exact ⟨by show s.threshold - 0.5 ≤ s.threshold; linarith, rfl⟩
  · exact ⟨by show s.threshold - 0.5 ≤ s.threshold; linarith, rfl⟩

/-- C19: at startup the threshold is `round(temp) + 1.0` with C rounding
(halves away from zero), so 0.5 <= threshold - temp <= 1.5 for every initial
sensor reading; the first control tick taken with the initial temperature leaves
the state Idle with duty cycle 0.0, and so does a whole first main-loop
iteration whatever the touch input. -/
theorem C19_initial_threshold (raw : ℚ) (xsize : Int) (ts : TS_StateTypeDef) :
    (init raw).threshold = (cround (init raw).temp : ℚ) + 1.0 ∧
      (0.5 ≤ (init raw).threshold - (init raw).temp ∧
        (init raw).threshold - (init raw).temp ≤ 1.5) ∧
      ((controlTick (init raw)).state = AppState.IDLE ∧ (controlTick (init raw)).fan = 0.0) ∧
      ((mainLoopIter xsize ts (init raw)).state = AppState.IDLE ∧
        (mainLoopIter xsize ts (init raw)).fan = 0.0) := by
  obtain ⟨b1, b2⟩ := cround_bounds (raw / 0.01)
  have hthr : (init raw).threshold = (cround (raw / 0.01) : ℚ) + 1.0 := rfl
  have htemp : (init raw).temp = raw / 0.01 := rfl
  have e1 : (1.0 : ℚ) = 1 := by norm_num
  have e5 : (0.5 : ℚ) = 1 / 2 := by norm_num
  have e15 : (1.5 : ℚ) = 3 / 2 := by norm_num
  have hlo : 0.5 ≤ (init raw).threshold - (init raw).temp := by
    rw [hthr, htemp, e1, e5]
    linarith
  have hhi : (init raw).threshold - (init raw).temp ≤ 1.5 := by
    rw [hthr, htemp, e1, e15]
    linarith
  refine ⟨rfl, ⟨hlo, hhi⟩, controlTick_idle_cool _ rfl ?_, ?_⟩
  · rw [e5] at hlo
    linarith
  · obtain ⟨t1, t2⟩ := touchHandling_threshold xsize ts (init raw)
    apply controlTick_idle_cool
    · rw [(touchHandling_state xsize ts (init raw)).1]
      rfl
    · rw [t2]
      rw [e5] at hlo t1
      linarith

/-! ## The display text -/

theorem fmtD_of_nonneg (n : ℤ) (h : 0 ≤ n) : fmtD n = toString n.natAbs := by
  cases n with
  | ofNat m => rfl
  | negSucc m => exact absurd h (by simp)

theorem fmtD_of_neg (n : ℤ) (h : n < 0) : fmtD n = "-" ++ toString n.natAbs := by
  cases n with
  | ofNat m => exact absurd h (by simp)
  | negSucc m => rfl

/-- The fractional part left by the truncation is smaller than one, and the
truncation has the sign of the value. -/
theorem ctrunc_frac (v : ℚ) :
    |v - (ctrunc v : ℚ)| < 1 ∧ (0 ≤ v → 0 ≤ ctrunc v) ∧ (v < 0 → ctrunc v ≤ 0) := by
  unfold ctrunc
  split_ifs with h
  · have a := Int.floor_le v
    have b := Int.lt_floor_add_one v
    refine ⟨?_, fun _ => Int.floor_nonneg.mpr h, fun k => absurd h (not_le.mpr k)⟩
    rw [abs_lt]
    constructor <;> linarith
  · have a := Int.le_ceil v
    have b := Int.ceil_lt_add_one v
    have hv : v < 0 := not_le.mp h
    refine ⟨?_, fun k => absurd k h, fun _ => ?_⟩
    · rw [abs_lt]
      constructor <;> linarith
    · have : (⌈v⌉ : ℚ) < 1 := by linarith
      have : ⌈v⌉ < 1 := by exact_mod_cast this
      omega

/-- C16: for every value `v` whose truncation fits in an `int`, the text the
main loop formats is the label followed by a minus sign exactly when `v < 0`,
the digits of the truncation of `v` toward zero, a point, the single digit
`d = floor(|v - trunc v| * 10)` with 0 <= d <= 9, and `C`; for -1 < v < 0 the
truncation is 0 and the minus sign comes from the special case. -/
theorem C16_display_text (label : String) (v : ℚ)
    (hfit : -2147483648 ≤ ctrunc v ∧ ctrunc v ≤ 2147483647) :
    formatValue label v =
        some (label ++ (if v < 0 then "-" else "") ++ toString (ctrunc v).natAbs ++ "." ++
          toString ⌊|v - (ctrunc v : ℚ)| * 10⌋.natAbs ++ "C") ∧
      0 ≤ ⌊|v - (ctrunc v : ℚ)| * 10⌋ ∧ ⌊|v - (ctrunc v : ℚ)| * 10⌋ ≤ 9 := by
  obtain ⟨hfrac, hpos, hneg⟩ := ctrunc_frac v
  have hd0 : 0 ≤ ⌊|v - (ctrunc v : ℚ)| * 10⌋ :=
    Int.floor_nonneg.mpr (mul_nonneg (abs_nonneg _) (by norm_num))
  have hd9 : ⌊|v - (ctrunc v : ℚ)| * 10⌋ ≤ 9 := by
    have : ⌊|v - (ctrunc v : ℚ)| * 10⌋ < 10 := by
      rw [Int.floor_lt]
      push_cast
      linarith
    omega
  refine ⟨?_, hd0, hd9⟩
  have h1 : toInt v = some (ctrunc v) := by
    simp only [toInt, hfit, and_self, if_true]
  have habs : |(v - (ctrunc v : ℚ)) * 10| = |v - (ctrunc v : ℚ)| * 10 := by
    rw [abs_mul]
    norm_num
  have hc : ctrunc |(v - (ctrunc v : ℚ)) * 10| = ⌊|v - (ctrunc v : ℚ)| * 10⌋ := by
    rw [habs]
    unfold ctrunc
    rw [if_pos (mul_nonneg (abs_nonneg _) (by norm_num))]
  have h2 : toInt |(v - (ctrunc v : ℚ)) * 10| = some ⌊|v - (ctrunc v : ℚ)| * 10⌋ := by
    unfold toInt
    rw [hc, if_pos ⟨by omega, by omega⟩]
  have hdig : fmtD ⌊|v - (ctrunc v : ℚ)| * 10⌋ =
      toString ⌊|v - (ctrunc v : ℚ)| * 10⌋.natAbs := fmtD_of_nonneg _ hd0
  simp only [formatValue, h1, h2, hdig]
  by_cases hv : v < 0
  · by_cases hz : ctrunc v = 0
    · rw [if_pos ⟨hv, hz⟩, if_pos hv, hz]
      rfl
    · have hlt : ctrunc v < 0 := lt_of_le_of_ne (hneg hv) hz
      rw [if_neg (fun k => hz k.2), if_pos hv, fmtD_of_neg _ hlt, ← String.append_assoc]
  · have hge : 0 ≤ ctrunc v := hpos (not_lt.mp hv)
    rw [if_neg (fun k => hv k.1), if_neg hv, fmtD_of_nonneg _ hge, String.append_empty]

/-- C16 at the temperature -0.5: the truncation is 0 and the text carries the
minus sign of the special case. -/
theorem C16_display_text_witness :
    (-2147483648 ≤ ctrunc (-0.5) ∧ ctrunc (-0.5) ≤ 2147483647) ∧
      sensorText exFrost = some "Sensor: -0.5C" := by
  have hc : ctrunc (-0.5) = 0 := by norm_num [ctrunc]
  have hfit : -2147483648 ≤ ctrunc (-0.5) ∧ ctrunc (-0.5) ≤ 2147483647 := by
    rw [hc]
    decide
  refine ⟨hfit, ?_⟩
  show formatValue "Sensor: " (-0.5) = some "Sensor: -0.5C"
  rw [(C16_display_text "Sensor: " (-0.5) hfit).1, hc]
  have hd : ⌊|(-0.5 : ℚ) - ((0 : ℤ) : ℚ)| * 10⌋ = 5 := by
    have e : |(-0.5 : ℚ) - ((0 : ℤ) : ℚ)| * 10 = ((5 : ℤ) : ℚ) := by
      rw [abs_of_neg (by norm_num)]
      norm_num
    rw [e, Int.floor_intCast]
  rw [hd, if_pos (by norm_num)]
  decide

end FanControl
